import Mathlib

/-!
A shallow embedding of the storage-backed CRUD core of the
marketing-productivity Chrome extension (src/task.js, src/youtube.js and the
popup/validator modules).

Conventions of the embedding:
* The persisted `tasks` collection is a `List Task`; every TaskManager
  operation takes the loaded collection, the string arguments of the JS
  function, the values returned by the ambient reads (`Date.now()`,
  `crypto.randomUUID()`) as explicit parameters, and returns the JS result
  together with `Option (List Task)`: `some l` means `_saveTasks l` was
  issued, `none` means the operation returned before any save.
* JS `throw new InvalidInputError(...)` is `Except.error (.invalidInput _)`.
* JS falsy-string checks (`!id`) become `id = ""` (the arguments modelled are
  strings, for which the only falsy value is the empty string).
* Timestamps are `Int` (the value of `Date.now()`).
-/

namespace TaskApp

/-- JS error values thrown by the task layer (`InvalidInputError`). -/
inductive JsError where
  | invalidInput (msg : String)
deriving Repr, DecidableEq

/-- A subtask record as stored inside a task (src/task.js `addSubtask`). -/
structure Subtask where
  id : String
  title : String
  isComplete : Bool
  createdAt : Int
  updatedAt : Int
deriving Repr, DecidableEq

/-- A task record as stored under the `tasks` key (src/task.js `createTask`). -/
structure Task where
  id : String
  title : String
  description : String
  dueDate : Option String
  isComplete : Bool
  createdAt : Int
  updatedAt : Int
  subtasks : List Subtask
deriving Repr, DecidableEq

/-- The `newData` argument of `updateTask`: a JS object whose own properties
are spread over the existing task.  `none` in a field means the property is
absent from the object; `some v` that it is present with value `v`. -/
structure TaskPatch where
  id : Option String := none
  title : Option String := none
  description : Option String := none
  dueDate : Option (Option String) := none
  isComplete : Option Bool := none
  createdAt : Option Int := none
  updatedAt : Option Int := none
  subtasks : Option (List Subtask) := none
deriving Repr, DecidableEq

/-- The merged object built by `updateTask` (src/task.js lines 180-186):
`{...tasks[taskIndex], ...newData, id: tasks[taskIndex].id,
subtasks: tasks[taskIndex].subtasks, updatedAt: Date.now()}`.
Every property present in `newData` overrides the stored task, after which
`id` and `subtasks` are written back from the stored task and `updatedAt`
from the clock. -/
def mergeTask (t : Task) (p : TaskPatch) (now : Int) : Task :=
  { id := t.id
    title := p.title.getD t.title
    description := p.description.getD t.description
    dueDate := p.dueDate.getD t.dueDate
    isComplete := p.isComplete.getD t.isComplete
    createdAt := p.createdAt.getD t.createdAt
    updatedAt := now
    subtasks := t.subtasks }

/-- The `findIndex`-and-replace step of `updateTask`: replace the first task
whose `id` matches with its merge, returning the merged task (if any) and the
rewritten collection. -/
def updateTaskGo (id : String) (p : TaskPatch) (now : Int) :
    List Task → Option Task × List Task
  | [] => (none, [])
  | t :: ts =>
    if t.id = id then
      (some (mergeTask t p now), mergeTask t p now :: ts)
    else
      let r := updateTaskGo id p now ts
      (r.1, t :: r.2)

/-- src/task.js `TaskManager.updateTask` (lines 164-192).  `newData = none`
models a non-object / null `newData` argument. -/
def updateTask (tasks : List Task) (id : String) (newData : Option TaskPatch)
    (now : Int) : Except JsError (Option Task × Option (List Task)) :=
  if id = "" then
    .error (.invalidInput "Task ID and valid new data object are required to update a task.")
  else
    match newData with
    | none =>
      .error (.invalidInput "Task ID and valid new data object are required to update a task.")
    | some p =>
      let r := updateTaskGo id p now tasks
      match r.1 with
      | none => .ok (none, none)
      | some u => .ok (some u, some r.2)

/-- src/task.js `TaskManager.getTaskById` (lines 136-142). -/
def getTaskById (tasks : List Task) (id : String) :
    Except JsError (Option Task) :=
  if id = "" then
    .error (.invalidInput "Task ID must be provided to retrieve a task.")
  else
    .ok (tasks.find? (fun t => t.id = id))

/-- src/task.js `TaskManager.deleteTask` (lines 201-218): filter out every
task with the given id; report `false` (and issue no save) when the length
is unchanged. -/
def deleteTask (tasks : List Task) (id : String) :
    Except JsError (Bool × Option (List Task)) :=
  if id = "" then
    .error (.invalidInput "Task ID must be provided to delete a task.")
  else
    let filtered := tasks.filter (fun t => ¬ (t.id = id))
    if filtered.length = tasks.length then
      .ok (false, none)
    else
      .ok (true, some filtered)

/-- The `taskData` argument of `createTask`.  `title = none` models an object
without a `title` property. -/
structure TaskInput where
  title : Option String := none
  description : Option String := none
  dueDate : Option String := none
deriving Repr, DecidableEq

/-- The `InvalidInputError` thrown by `createTask`. -/
def titleRequiredError : JsError :=
  .invalidInput "Invalid task data. A \"title\" is required to create a task."

/-- JS `x || null` for an optional string: an absent or empty string maps to
`null`. -/
def jsOrNull (o : Option String) : Option String :=
  match o with
  | some s => if s = "" then none else some s
  | none => none

/-- src/task.js `TaskManager.createTask` (lines 104-127).  `taskData = none`
models a falsy or non-object argument; `freshId` is the value produced by
`_generateUniqueId` (`crypto.randomUUID()`), `now` the value of `Date.now()`.
`description || ''` maps an absent or empty description to `''`;
`dueDate || null` maps an absent or empty dueDate to `null`. -/
def createTask (taskData : Option TaskInput) (tasks : List Task)
    (freshId : String) (now : Int) : Except JsError (Task × List Task) :=
  match taskData with
  | none => .error titleRequiredError
  | some d =>
    match d.title with
    | none => .error titleRequiredError
    | some t =>
      if t = "" then
        .error titleRequiredError
      else
        let newTask : Task :=
          { id := freshId
            title := t
            description := d.description.getD ""
            dueDate := jsOrNull d.dueDate
            isComplete := false
            createdAt := now
            updatedAt := now
            subtasks := [] }
        .ok (newTask, tasks ++ [newTask])

/-- src/task.js `TaskManager.deleteSubtask` (lines 282-308): find the first
task matching `taskId`; inside it filter the subtasks; when nothing was
removed return `false` with no save (the in-memory mutation of the freshly
loaded copy is discarded); otherwise bump the parent's `updatedAt` and save. -/
def deleteSubGo (taskId subId : String) (now : Int) :
    List Task → Bool × Option (List Task)
  | [] => (false, none)
  | t :: ts =>
    if t.id = taskId then
      let filtered := t.subtasks.filter (fun s => ¬ (s.id = subId))
      if filtered.length = t.subtasks.length then
        (false, none)
      else
        (true, some ({ t with subtasks := filtered, updatedAt := now } :: ts))
    else
      match deleteSubGo taskId subId now ts with
      | (r, none) => (r, none)
      | (r, some ts') => (r, some (t :: ts'))

/-- src/task.js `TaskManager.deleteSubtask` entry point. -/
def deleteSubtask (tasks : List Task) (taskId subId : String) (now : Int) :
    Except JsError (Bool × Option (List Task)) :=
  if taskId = "" ∨ subId = "" then
    .error (.invalidInput "Parent Task ID and Subtask ID must be provided to delete a subtask.")
  else
    .ok (deleteSubGo taskId subId now tasks)

/-- Inner step of `markSubtaskStatus`: set `isComplete` and `updatedAt` on the
first subtask matching `subId` (src/task.js lines 340-341). -/
def markSubGo (subId : String) (b : Bool) (now1 : Int) :
    List Subtask → Option Subtask × List Subtask
  | [] => (none, [])
  | s :: ss =>
    if s.id = subId then
      (some { s with isComplete := b, updatedAt := now1 },
        { s with isComplete := b, updatedAt := now1 } :: ss)
    else
      let r := markSubGo subId b now1 ss
      (r.1, s :: r.2)

/-- Outer step of `markSubtaskStatus`: find the first task matching `taskId`,
rewrite its subtask, bump its `updatedAt` (src/task.js line 342), and report
whether a save was issued. -/
def markTasksGo (taskId subId : String) (b : Bool) (now1 now2 : Int) :
    List Task → Option Subtask × Option (List Task)
  | [] => (none, none)
  | t :: ts =>
    if t.id = taskId then
      let r := markSubGo subId b now1 t.subtasks
      match r.1 with
      | none => (none, none)
      | some s' =>
        (some s', some ({ t with subtasks := r.2, updatedAt := now2 } :: ts))
    else
      match markTasksGo taskId subId b now1 now2 ts with
      | (res, none) => (res, none)
      | (res, some ts') => (res, some (t :: ts'))

/-- src/task.js `TaskManager.markSubtaskStatus` (lines 319-347).  `now1` and
`now2` are the two successive `Date.now()` reads on lines 341 and 342. -/
def markSubtaskStatus (tasks : List Task) (taskId subId : String) (b : Bool)
    (now1 now2 : Int) :
    Except JsError (Option Subtask × Option (List Task)) :=
  if taskId = "" ∨ subId = "" then
    .error (.invalidInput "Parent Task ID, Subtask ID, and a boolean status (isComplete) are required to mark subtask status.")
  else
    .ok (markTasksGo taskId subId b now1 now2 tasks)

/-! ### StorageManager (src/youtube.js, storage module, lines 73-162)

The key-value store is modelled as a partial map `String → Option α`:
`none` means the key has never been written. -/

/-- JS `StorageManager.getItem(key, defaultValue)`: yields the stored value when
the key is present, the caller-supplied default otherwise. -/
def getItem {α : Type} (store : String → Option α) (key : String)
    (defaultValue : α) : α :=
  match store key with
  | some v => v
  | none => defaultValue

/-- The key `StorageManager.STORAGE_KEYS.TASKS`. -/
def TASKS_KEY : String := "marketingProductivityExtension_tasks"

/-- JS `StorageManager.getAllTasks()`: `getItem(TASKS, [])`. -/
def getAllTasksStored (store : String → Option (List Task)) : List Task :=
  getItem store TASKS_KEY []

/-! ### Validation helpers (src/unnamed/part_000, inputvalidator module) -/

/-- The character set of the JS `\s` class (also the set removed by
`String.prototype.trim`): WhiteSpace and LineTerminator code points. -/
def isJsSpace (c : Char) : Bool :=
  c = ' ' || c = '\t' || c = '\n' || c = '\u000B' || c = '\u000C' ||
  c = '\r' || c = '\u00A0' || c = '\u1680' ||
  ('\u2000' ≤ c && c ≤ '\u200A') || c = '\u2028' || c = '\u2029' ||
  c = '\u202F' || c = '\u205F' || c = '\u3000' || c = '\uFEFF'

/-- JS `String.prototype.trim`. -/
def jsTrim (s : String) : String :=
  ⟨((s.data.dropWhile isJsSpace).reverse.dropWhile isJsSpace).reverse⟩

/-- JS `isValidText(text, min, max)` (part_000 lines 453-464) for string `text`:
clamp `min` to a non-negative number (absent/NaN ↦ 0), clamp `max` to
`≥ minVal` (absent/NaN ↦ `Number.MAX_SAFE_INTEGER`), and test the trimmed
length against the two bounds.  A non-string `text` returns false and is not
modelled (all call sites pass strings). -/
def isValidText (text : String) (min max : Option Int) : Bool :=
  let trimmed := jsTrim text
  let minVal : Int := match min with
    | some m => if 0 ≤ m then m else 0
    | none => 0
  let maxVal : Int := match max with
    | some m => if minVal ≤ m then m else 9007199254740991
    | none => 9007199254740991
  decide (minVal ≤ (trimmed.length : Int)) &&
    decide ((trimmed.length : Int) ≤ maxVal)

/-! ### Calendar arithmetic for `isValidDate`

`new Date("YYYY-MM-DD")` interprets the string as UTC midnight; the getters
`getFullYear`/`getMonth`/`getDate` convert the timestamp to the host's local
calendar, i.e. shift it by the local timezone offset before splitting into a
civil date.  The embedding carries that offset (`tzOffsetMinutes`, the local
time minus UTC in minutes) as an explicit environment parameter. -/

/-- Gregorian leap-year test. -/
def isLeapYear (y : Int) : Bool :=
  (decide (y % 4 = 0) && !(decide (y % 100 = 0))) || decide (y % 400 = 0)

/-- Number of days in month `m` (1-12) of year `y`. -/
def daysInMonth (y m : Int) : Int :=
  if m = 1 then 31 else if m = 2 then (if isLeapYear y then 29 else 28)
  else if m = 3 then 31 else if m = 4 then 30 else if m = 5 then 31
  else if m = 6 then 30 else if m = 7 then 31 else if m = 8 then 31
  else if m = 9 then 30 else if m = 10 then 31 else if m = 11 then 30
  else 31

/-- Days since the Unix epoch of the civil date `(y, m, d)` (floor-division
variant of the standard civil-from-days algorithm). -/
def daysFromCivil (y m d : Int) : Int :=
  let y' := if m ≤ 2 then y - 1 else y
  let era := Int.fdiv y' 400
  let yoe := y' - era * 400
  let mp := if 2 < m then m - 3 else m + 9
  let doy := Int.fdiv (153 * mp + 2) 5 + d - 1
  let doe := yoe * 365 + Int.fdiv yoe 4 - Int.fdiv yoe 100 + doy
  era * 146097 + doe - 719468

/-- Civil date `(year, month, day)` of a count of days since the Unix epoch
(inverse of `daysFromCivil`). -/
def civilFromDays (z : Int) : Int × Int × Int :=
  let z' := z + 719468
  let era := Int.fdiv z' 146097
  let doe := z' - era * 146097
  let yoe := Int.fdiv
    (doe - Int.fdiv doe 1460 + Int.fdiv doe 36524 - Int.fdiv doe 146096) 365
  let y := yoe + era * 400
  let doy := doe - (365 * yoe + Int.fdiv yoe 4 - Int.fdiv yoe 100)
  let mp := Int.fdiv (5 * doy + 2) 153
  let d := doy - Int.fdiv (153 * mp + 2) 5 + 1
  let m := if mp < 10 then mp + 3 else mp - 9
  (if m ≤ 2 then y + 1 else y, m, d)

/-- Numeric value of a decimal digit character. -/
def digitVal (c : Char) : Int := (c.toNat : Int) - 48

/-- The regex `^\d{4}-\d{2}-\d{2}$` of `isValidDate` (part_000 line 489). -/
def dateShapeOk (s : String) : Bool :=
  match s.data with
  | [y1, y2, y3, y4, a, m1, m2, b, d1, d2] =>
    y1.isDigit && y2.isDigit && y3.isDigit && y4.isDigit &&
    decide (a = '-') && m1.isDigit && m2.isDigit && decide (b = '-') &&
    d1.isDigit && d2.isDigit
  | _ => false

/-- JS `parseInt(dateString.substring(0, 4), 10)` on a shape-checked string. -/
def parseY (s : String) : Int :=
  match s.data with
  | y1 :: y2 :: y3 :: y4 :: _ =>
    1000 * digitVal y1 + 100 * digitVal y2 + 10 * digitVal y3 + digitVal y4
  | _ => 0

/-- JS `parseInt(dateString.substring(5, 7), 10)` on a shape-checked string. -/
def parseM (s : String) : Int :=
  match s.data with
  | _ :: _ :: _ :: _ :: _ :: m1 :: m2 :: _ => 10 * digitVal m1 + digitVal m2
  | _ => 0

/-- JS `parseInt(dateString.substring(8, 10), 10)` on a shape-checked string. -/
def parseD (s : String) : Int :=
  match s.data with
  | _ :: _ :: _ :: _ :: _ :: _ :: _ :: _ :: d1 :: d2 :: _ =>
    10 * digitVal d1 + digitVal d2
  | _ => 0

/-- JS `new Date(dateString)` for a `YYYY-MM-DD` string, modelled on V8 (the
engine running this Chrome extension): the string is interpreted as UTC
midnight, and out-of-range calendar components (month outside 1-12, day
outside the month) produce an Invalid Date, here `none`.  The result is the
`Date.now`-style millisecond timestamp. -/
def parseDateUTC (s : String) : Option Int :=
  if dateShapeOk s then
    let y := parseY s
    let m := parseM s
    let d := parseD s
    if 1 ≤ m ∧ m ≤ 12 ∧ 1 ≤ d ∧ d ≤ daysInMonth y m then
      some (daysFromCivil y m d * 86400000)
    else none
  else none

/-- JS `isValidDate(dateString)` (part_000 lines 483-504): reject non-strings
and blank strings, require the `YYYY-MM-DD` shape, parse with `new Date`,
then compare `getFullYear()/getMonth()+1/getDate()` — which read the *local*
calendar, i.e. the UTC timestamp shifted by `tzOffsetMinutes` — against the
integers parsed from the string. -/
def isValidDate (tzOffsetMinutes : Int) (s : String) : Bool :=
  if jsTrim s = "" then false
  else if !(dateShapeOk s) then false
  else
    match parseDateUTC s with
    | none => false
    | some t =>
      let localDays := Int.fdiv (t + tzOffsetMinutes * 60000) 86400000
      let c := civilFromDays localDays
      decide (c.1 = parseY s) && decide (c.2.1 = parseM s) &&
        decide (c.2.2 = parseD s)

/-! ### YouTube video-id extraction (src/youtube.js lines 1-22)

`extractVideoId` applies the JS regex

`(?:youtube\.com\/(?:[^\/\n\s]+\/\S+\/|(?:v|e(?:mbed)?|shorts)\/|.*[?&]v=)|youtu\.be\/)([a-zA-Z0-9_-]{11})`

to the url via `String.prototype.match` and returns capture group 1.  The
embedding implements JS backtracking semantics for this pattern: a matcher
maps an input suffix to the list of remaining suffixes after a match, in
backtracking priority order (alternatives left to right, quantifiers
greedy); the overall search tries start positions left to right. -/

/-- Literal matcher. -/
def mlit : List Char → List Char → List (List Char)
  | [], s => [s]
  | _ :: _, [] => []
  | c :: cs, d :: s => if c = d then mlit cs s else []

/-- Literal matcher from a string. -/
def mlitS (pat : String) (s : List Char) : List (List Char) :=
  mlit pat.data s

/-- Single-character class matcher. -/
def mcls (p : Char → Bool) : List Char → List (List Char)
  | [] => []
  | c :: s => if p c then [s] else []

/-- Sequencing: explore every end point of the first matcher in priority
order, continuing with the second. -/
def mseq (m1 m2 : List Char → List (List Char)) (s : List Char) :
    List (List Char) :=
  (m1 s).flatMap m2

/-- Ordered alternation. -/
def malt (m1 m2 : List Char → List (List Char)) (s : List Char) :
    List (List Char) :=
  m1 s ++ m2 s

/-- Greedy `?` on a matcher: try the match first, then the empty match. -/
def mopt (m : List Char → List (List Char)) (s : List Char) :
    List (List Char) :=
  m s ++ [s]

/-- Greedy `*` over a one-character class: consume the longest run first,
then backtrack one character at a time. -/
def mstarCls (p : Char → Bool) (s : List Char) : List (List Char) :=
  let n := (s.takeWhile p).length
  (List.range (n + 1)).map (fun i => s.drop (n - i))

/-- Greedy `+` over a one-character class. -/
def mplusCls (p : Char → Bool) (s : List Char) : List (List Char) :=
  let n := (s.takeWhile p).length
  (List.range n).map (fun i => s.drop (n - i))

/-- The class `[a-zA-Z0-9_-]` of the capture group. -/
def idChar (c : Char) : Bool :=
  c.isAlpha || c.isDigit || c = '_' || c = '-'

/-- The JS `.` class: any character except a line terminator. -/
def dotChar (c : Char) : Bool :=
  !(c = '\n' || c = '\r' || c = '\u2028' || c = '\u2029')

/-- The class `[^\/\n\s]`. -/
def notSlashWs (c : Char) : Bool :=
  !(c = '/' || c = '\n' || isJsSpace c)

/-- The class `\S`. -/
def notWs (c : Char) : Bool := !(isJsSpace c)

/-- Pattern `[^\/\n\s]+\/\S+\/` — the first alternative after `youtube.com/`. -/
def ytAltPath : List Char → List (List Char) :=
  mseq (mplusCls notSlashWs)
    (mseq (mlitS "/") (mseq (mplusCls notWs) (mlitS "/")))

/-- Pattern `(?:v|e(?:mbed)?|shorts)\/` — the second alternative. -/
def ytAltShort : List Char → List (List Char) :=
  mseq
    (malt (mlitS "v")
      (malt (mseq (mlitS "e") (mopt (mlitS "mbed"))) (mlitS "shorts")))
    (mlitS "/")

/-- Pattern `.*[?&]v=` — the third alternative. -/
def ytAltQuery : List Char → List (List Char) :=
  mseq (mstarCls dotChar)
    (mseq (mcls (fun c => c = '?' || c = '&')) (mlitS "v="))

/-- The whole non-capturing group before the video id. -/
def ytHead : List Char → List (List Char) :=
  malt
    (mseq (mlitS "youtube.com/") (malt ytAltPath (malt ytAltShort ytAltQuery)))
    (mlitS "youtu.be/")

/-- The capture group `([a-zA-Z0-9_-]{11})`: exactly the next 11 characters,
each in the id class. -/
def captureId (s : List Char) : Option (List Char) :=
  let t := s.take 11
  if t.length = 11 ∧ t.all idChar = true then some t else none

/-- Try the whole pattern at one start position, backtracking through the
head's match candidates. -/
def matchAt (s : List Char) : Option (List Char) :=
  (ytHead s).findSome? captureId

/-- JS `String.prototype.match`: try successive start positions, leftmost
first. -/
def scanMatch : List Char → Option (List Char)
  | [] => matchAt []
  | c :: rest =>
    match matchAt (c :: rest) with
    | some r => some r
    | none => scanMatch rest

/-- src/youtube.js `extractVideoId` (lines 1-10): `null` on a falsy url,
otherwise capture group 1 of the first regex match, or `null` when the regex
does not match. -/
def extractVideoId (url : String) : Option String :=
  if url = "" then none
  else (scanMatch url.data).map (fun l => ⟨l⟩)

/-- src/youtube.js `getEmbedUrl` (lines 17-22). -/
def getEmbedUrl (videoId : String) : Option String :=
  if videoId.length ≠ 11 then none
  else some ("https://www.youtube.com/embed/" ++ videoId)

/-! ### VideoRef collection logic (src/unnamed/part_000 `handleYoutubeEmbed`,
lines 300-339)

The popup binds `STORAGE_KEYS` to `StorageManager.STORAGE_KEYS`
(src/youtube.js lines 74-78), which defines only `TASKS`, `NOTES` and
`SETTINGS`.  The property `STORAGE_KEYS.YOUTUBE_VIDEOS` read on line 318 is
therefore `undefined`; the embedding threads that through the handler
faithfully. -/

/-- A stored video reference. -/
structure VideoRef where
  id : String
  videoId : String
  timestamp : Int
deriving Repr, DecidableEq

/-- Observable outcome of one `handleYoutubeEmbed` run: the three
early-return alerts (`invalidYoutubeUrl`, `invalidYoutubeUrlSpecific`, and
the try/catch's `embedVideoFailed`), the duplicate no-op alert
(`videoAlreadyEmbedded`), and the successful push. -/
inductive EmbedOutcome where
  | invalidUrl
  | unparsableUrl
  | failed
  | duplicate
  | added
deriving Repr, DecidableEq

/-- The value of `STORAGE_KEYS.YOUTUBE_VIDEOS` in the popup module: the
property does not exist on storage.js's `STORAGE_KEYS` object, so the read
yields `undefined` (`none`). -/
def STORAGE_KEYS_YOUTUBE_VIDEOS : Option String := none

/-- JS `StorageManager.getItem(key, defaultValue)` at a call site whose key
expression may be `undefined` (`none`): `chrome.storage.local.get(undefined)`
resolves with the whole store and `result[undefined]` is `undefined`, so the
default is returned whatever the store holds.  The popup call site omits
`defaultValue`, making the default `null` (`none`). -/
def getItemKeyed {α : Type} (store : String → Option α) (key : Option String)
    (defaultValue : Option α) : Option α :=
  match key with
  | some k =>
    match store k with
    | some v => some v
    | none => defaultValue
  | none => defaultValue

/-- JS property-key coercion in `chrome.storage.local.set({ [key]: value })`:
an `undefined` key becomes the string `"undefined"`. -/
def jsKeyToString (key : Option String) : String :=
  match key with
  | some s => s
  | none => "undefined"

/-- JS `StorageManager.setItem(key, value)` at a call site whose key
expression may be `undefined`. -/
def setItemKeyed (store : String → Option (List VideoRef))
    (key : Option String) (v : List VideoRef) :
    String → Option (List VideoRef) :=
  fun k => if k = jsKeyToString key then some v else store k

/-- src/unnamed/part_000 `handleYoutubeEmbed` (lines 300-339): reject when
`isValidUrl` failed (`urlValid`, the outcome of the platform URL parser, is
an explicit parameter); reject when no video id can be extracted.  Then the
try block loads `videos = getItem(STORAGE_KEYS.YOUTUBE_VIDEOS)` — an
`undefined` key with an omitted default — so the load yields `null` whatever
the store holds, and `videos.some(...)` throws a TypeError that the
surrounding try/catch turns into the `embedVideoFailed` alert with no write.
The duplicate check and the push are transcribed from the source body but
run only when the load yields an array, which the undefined key rules out. -/
def handleYoutubeEmbed (urlValid : Bool) (url : String)
    (store : String → Option (List VideoRef)) (newId : String) (now : Int) :
    EmbedOutcome × (String → Option (List VideoRef)) :=
  if urlValid = false then (.invalidUrl, store)
  else
    match extractVideoId url with
    | none => (.unparsableUrl, store)
    | some vid =>
      match getItemKeyed store STORAGE_KEYS_YOUTUBE_VIDEOS none with
      | none => (.failed, store)
      | some videos =>
        if videos.any (fun v => v.videoId = vid) then (.duplicate, store)
        else
          (.added, setItemKeyed store STORAGE_KEYS_YOUTUBE_VIDEOS
            (videos ++ [{ id := newId, videoId := vid, timestamp := now }]))

/-! ### Shared sample data for concrete witnesses -/

/-- A concrete subtask used by the witness instantiations. -/
def sampleSub : Subtask :=
  { id := "s1", title := "2%", isComplete := false, createdAt := 1,
    updatedAt := 1 }

/-- A concrete task used by the witness instantiations. -/
def sampleTask : Task :=
  { id := "t1", title := "Buy milk", description := "", dueDate := none,
    isComplete := false, createdAt := 1, updatedAt := 1,
    subtasks := [sampleSub] }

/-! ### Helper lemmas on the first-match recursions -/

/-- When no task matches, the `findIndex`-and-replace step of `updateTask`
reports `none` and leaves the collection alone. -/
theorem updateTaskGo_no_match (id : String) (p : TaskPatch) (now : Int)
    (tasks : List Task) (h : ∀ t ∈ tasks, t.id ≠ id) :
    updateTaskGo id p now tasks = (none, tasks) := by
  induction tasks with
  | nil => rfl
  | cons t ts ih =>
    have ht : ¬ (t.id = id) := h t (by simp)
    simp only [updateTaskGo, if_neg ht]
    rw [ih (fun x hx => h x (by simp [hx]))]

/-- The `findIndex`-and-replace step of `updateTask` rewrites exactly the
first matching task. -/
theorem updateTaskGo_first_match (id : String) (p : TaskPatch) (now : Int)
    (l1 l2 : List Task) (t0 : Task)
    (h1 : ∀ t ∈ l1, t.id ≠ id) (h0 : t0.id = id) :
    updateTaskGo id p now (l1 ++ t0 :: l2) =
      (some (mergeTask t0 p now), l1 ++ mergeTask t0 p now :: l2) := by
  induction l1 with
  | nil => simp [updateTaskGo, h0]
  | cons t ts ih =>
    have ht : ¬ (t.id = id) := h1 t (by simp)
    simp only [List.cons_append, updateTaskGo, if_neg ht, List.append_eq]
    rw [ih (fun x hx => h1 x (by simp [hx]))]

/-! ### C1 -/

/-- C1: for every stored collection whose first task with the requested id is
`t0` (`l1` holds the earlier, non-matching tasks) and every patch object —
including one supplying its own `id` or `subtasks` — `updateTask` returns a
merged task that keeps `t0`'s `id` and `subtasks`, takes every other present
field from the patch, stamps `updatedAt = now`, and saves the collection with
exactly that task replaced; the stored `id` and `subtasks` are unchanged. -/
theorem updateTask_preserves_id_and_subtasks
    (l1 l2 : List Task) (t0 : Task) (p : TaskPatch) (now : Int)
    (hid : t0.id ≠ "")
    (hfirst : ∀ t ∈ l1, t.id ≠ t0.id) :
    ∃ u, updateTask (l1 ++ t0 :: l2) t0.id (some p) now =
        .ok (some u, some (l1 ++ u :: l2)) ∧
      u.id = t0.id ∧
      u.subtasks = t0.subtasks ∧
      u.updatedAt = now ∧
      u.title = p.title.getD t0.title ∧
      u.description = p.description.getD t0.description ∧
      u.dueDate = p.dueDate.getD t0.dueDate ∧
      u.isComplete = p.isComplete.getD t0.isComplete ∧
      u.createdAt = p.createdAt.getD t0.createdAt := by
  refine ⟨mergeTask t0 p now, ?_, rfl, rfl, rfl, rfl, rfl, rfl, rfl, rfl⟩
  simp only [updateTask, if_neg hid]
  rw [updateTaskGo_first_match t0.id p now l1 l2 t0 hfirst rfl]

/-- A concrete patch that tries to overwrite both `id` and `subtasks`. -/
def samplePatch : TaskPatch :=
  { id := some "other", title := some "New title", subtasks := some [] }

/-- C1 witness: a concrete run in which the patch tries to overwrite both
`id` and `subtasks`. -/
theorem updateTask_preserves_id_and_subtasks_witness :
    ∃ u, updateTask [sampleTask] "t1" (some samplePatch) 5 =
        .ok (some u, some ([] ++ u :: [])) ∧
      u.id = sampleTask.id ∧
      u.subtasks = sampleTask.subtasks ∧
      u.updatedAt = 5 ∧
      u.title = samplePatch.title.getD sampleTask.title ∧
      u.description = samplePatch.description.getD sampleTask.description ∧
      u.dueDate = samplePatch.dueDate.getD sampleTask.dueDate ∧
      u.isComplete = samplePatch.isComplete.getD sampleTask.isComplete ∧
      u.createdAt = samplePatch.createdAt.getD sampleTask.createdAt :=
  updateTask_preserves_id_and_subtasks [] [] sampleTask samplePatch 5
    (by decide) (by simp)

/-! ### C3 -/

/-- A filter on task ids keeps every task when none matches. -/
theorem filter_ne_all_tasks (id : String) (l : List Task)
    (h : ∀ t ∈ l, t.id ≠ id) :
    l.filter (fun t => ¬ (t.id = id)) = l := by
  induction l with
  | nil => rfl
  | cons t ts ih =>
    have ht : ¬ (t.id = id) := h t (by simp)
    rw [List.filter_cons_of_pos (by simpa using ht),
      ih (fun x hx => h x (by simp [hx]))]

/-- A filter on task ids removes exactly the single matching task. -/
theorem filter_ne_first_match (id : String) (l1 l2 : List Task) (t0 : Task)
    (h0 : t0.id = id) (h1 : ∀ t ∈ l1, t.id ≠ id) (h2 : ∀ t ∈ l2, t.id ≠ id) :
    (l1 ++ t0 :: l2).filter (fun t => ¬ (t.id = id)) = l1 ++ l2 := by
  induction l1 with
  | nil =>
    rw [List.nil_append, List.filter_cons_of_neg (by simp [h0]),
      filter_ne_all_tasks id l2 h2, List.nil_append]
  | cons t ts ih =>
    have ht : ¬ (t.id = id) := h1 t (by simp)
    rw [List.cons_append, List.filter_cons_of_pos (by simpa using ht),
      ih (fun x hx => h1 x (by simp [hx])), List.cons_append]

/-- C3: with a well-formed id that matches no stored task, `getTaskById`
answers `null`, `updateTask` answers `null`, and `deleteTask` answers
`false`; and `deleteTask` answers `true` exactly when one matching task was
removed (shown for a collection holding a single match).  Absence of the
target never surfaces as an error. -/
theorem notFound_is_not_an_error
    (tasks : List Task) (id : String) (p : TaskPatch) (now : Int)
    (hid : id ≠ "")
    (hmiss : ∀ t ∈ tasks, t.id ≠ id) :
    getTaskById tasks id = .ok none ∧
    updateTask tasks id (some p) now = .ok (none, none) ∧
    deleteTask tasks id = .ok (false, none) ∧
    (∀ (id2 : String) (l1 l2 : List Task) (t0 : Task), id2 ≠ "" →
      t0.id = id2 → (∀ t ∈ l1, t.id ≠ id2) → (∀ t ∈ l2, t.id ≠ id2) →
      deleteTask (l1 ++ t0 :: l2) id2 = .ok (true, some (l1 ++ l2))) := by
  have hfind : tasks.find? (fun t => t.id = id) = none := by
    rw [List.find?_eq_none]
    intro x hx
    simpa using hmiss x hx
  refine ⟨?_, ?_, ?_, ?_⟩
  · simp [getTaskById, if_neg hid, hfind]
  · simp [updateTask, if_neg hid, updateTaskGo_no_match id p now tasks hmiss]
  · simp only [deleteTask, if_neg hid]
    rw [filter_ne_all_tasks id tasks hmiss]
    simp
  · intro id2 l1 l2 t0 hid2 h0 h1 h2
    simp only [deleteTask, if_neg hid2]
    rw [filter_ne_first_match id2 l1 l2 t0 h0 h1 h2]
    have hlen : ¬ ((l1 ++ l2).length = (l1 ++ t0 :: l2).length) := by
      simp only [List.length_append, List.length_cons]
      omega
    rw [if_neg hlen]

/-- C3 witness: a concrete absent id (and, for the `true` case, a concrete
present id). -/
theorem notFound_is_not_an_error_witness :
    getTaskById [sampleTask] "zz" = .ok none ∧
    updateTask [sampleTask] "zz" (some samplePatch) 7 = .ok (none, none) ∧
    deleteTask [sampleTask] "zz" = .ok (false, none) ∧
    deleteTask ([] ++ sampleTask :: []) "t1" = .ok (true, some ([] ++ [])) := by
  have h := notFound_is_not_an_error [sampleTask] "zz" samplePatch 7
    (by decide) (by decide)
  exact ⟨h.1, h.2.1, h.2.2.1,
    h.2.2.2 "t1" [] [] sampleTask (by decide) (by decide) (by simp) (by simp)⟩

/-! ### C8 -/

/-- When no task matches the parent id, `deleteSubGo` reports `false` with no
save. -/
theorem deleteSubGo_no_parent (taskId subId : String) (now : Int)
    (tasks : List Task) (h : ∀ t ∈ tasks, t.id ≠ taskId) :
    deleteSubGo taskId subId now tasks = (false, none) := by
  induction tasks with
  | nil => rfl
  | cons t ts ih =>
    have ht : ¬ (t.id = taskId) := h t (by simp)
    simp only [deleteSubGo, if_neg ht]
    rw [ih (fun x hx => h x (by simp [hx]))]

/-- A filter on subtask ids keeps every subtask when none matches. -/
theorem filter_ne_all_subs (subId : String) (l : List Subtask)
    (h : ∀ s ∈ l, s.id ≠ subId) :
    l.filter (fun s => ¬ (s.id = subId)) = l := by
  induction l with
  | nil => rfl
  | cons s ss ih =>
    have hs : ¬ (s.id = subId) := h s (by simp)
    rw [List.filter_cons_of_pos (by simpa using hs),
      ih (fun x hx => h x (by simp [hx]))]

/-- When the first matching parent holds no matching subtask, `deleteSubGo`
reports `false` with no save. -/
theorem deleteSubGo_no_sub (taskId subId : String) (now : Int)
    (l1 l2 : List Task) (t0 : Task)
    (h1 : ∀ t ∈ l1, t.id ≠ taskId) (h0 : t0.id = taskId)
    (hsubs : ∀ s ∈ t0.subtasks, s.id ≠ subId) :
    deleteSubGo taskId subId now (l1 ++ t0 :: l2) = (false, none) := by
  induction l1 with
  | nil =>
    simp only [List.nil_append, deleteSubGo, if_pos h0]
    rw [filter_ne_all_subs subId t0.subtasks hsubs]
    simp
  | cons t ts ih =>
    have ht : ¬ (t.id = taskId) := h1 t (by simp)
    simp only [List.cons_append, deleteSubGo, if_neg ht, List.append_eq]
    rw [ih (fun x hx => h1 x (by simp [hx]))]

/-- C8: when the target of a mutating operation is missing, no save is
issued and the persisted collection is untouched: `updateTask` answers
`null`, `deleteTask` answers `false`, and `deleteSubtask` answers `false`
both when the parent task is missing and when the parent exists but holds no
matching subtask — in every case the save component is `none`. -/
theorem notFound_mutations_issue_no_save
    (tasks : List Task) (id : String) (p : TaskPatch) (now : Int)
    (hid : id ≠ "")
    (hmiss : ∀ t ∈ tasks, t.id ≠ id) :
    updateTask tasks id (some p) now = .ok (none, none) ∧
    deleteTask tasks id = .ok (false, none) ∧
    (∀ (tasks2 : List Task) (taskId subId : String),
      taskId ≠ "" → subId ≠ "" → (∀ t ∈ tasks2, t.id ≠ taskId) →
      deleteSubtask tasks2 taskId subId now = .ok (false, none)) ∧
    (∀ (l1 l2 : List Task) (t0 : Task) (subId : String),
      t0.id ≠ "" → subId ≠ "" → (∀ t ∈ l1, t.id ≠ t0.id) →
      (∀ s ∈ t0.subtasks, s.id ≠ subId) →
      deleteSubtask (l1 ++ t0 :: l2) t0.id subId now = .ok (false, none)) := by
  refine ⟨?_, ?_, ?_, ?_⟩
  · simp [updateTask, if_neg hid, updateTaskGo_no_match id p now tasks hmiss]
  · simp only [deleteTask, if_neg hid]
    rw [filter_ne_all_tasks id tasks hmiss]
    simp
  · intro tasks2 taskId subId htid hsid hmiss2
    have hor : ¬ (taskId = "" ∨ subId = "") := not_or.mpr ⟨htid, hsid⟩
    simp [deleteSubtask, if_neg hor,
      deleteSubGo_no_parent taskId subId now tasks2 hmiss2]
  · intro l1 l2 t0 subId htid hsid h1 hsubs
    have hor : ¬ (t0.id = "" ∨ subId = "") := not_or.mpr ⟨htid, hsid⟩
    simp [deleteSubtask, if_neg hor,
      deleteSubGo_no_sub t0.id subId now l1 l2 t0 h1 rfl hsubs]

/-- C8 witness: concrete missing-target runs of all three mutating
operations, each issuing no save. -/
theorem notFound_mutations_issue_no_save_witness :
    updateTask [sampleTask] "zz" (some samplePatch) 8 = .ok (none, none) ∧
    deleteTask [sampleTask] "zz" = .ok (false, none) ∧
    deleteSubtask [sampleTask] "zz" "s9" 8 = .ok (false, none) ∧
    deleteSubtask ([] ++ sampleTask :: []) sampleTask.id "s9" 8 =
      .ok (false, none) := by
  have h := notFound_mutations_issue_no_save [sampleTask] "zz" samplePatch 8
    (by decide) (by decide)
  exact ⟨h.1, h.2.1,
    h.2.2.1 [sampleTask] "zz" "s9" (by decide) (by decide) (by decide),
    h.2.2.2 [] [] sampleTask "s9" (by decide) (by decide) (by simp)
      (by decide)⟩

/-! ### C4 -/

/-- The inner step of `markSubtaskStatus` rewrites exactly the first matching
subtask, setting its status and timestamp. -/
theorem markSubGo_first_match (subId : String) (b : Bool) (now1 : Int)
    (s1 s2 : List Subtask) (s0 : Subtask)
    (h1 : ∀ s ∈ s1, s.id ≠ subId) (h0 : s0.id = subId) :
    markSubGo subId b now1 (s1 ++ s0 :: s2) =
      (some { s0 with isComplete := b, updatedAt := now1 },
        s1 ++ { s0 with isComplete := b, updatedAt := now1 } :: s2) := by
  induction s1 with
  | nil => simp [markSubGo, h0]
  | cons s ss ih =>
    have hs : ¬ (s.id = subId) := h1 s (by simp)
    simp only [List.cons_append, markSubGo, if_neg hs, List.append_eq]
    rw [ih (fun x hx => h1 x (by simp [hx]))]

/-- The outer step of `markSubtaskStatus` rewrites exactly the first matching
parent, carrying the inner result and bumping the parent timestamp. -/
theorem markTasksGo_first_match (taskId subId : String) (b : Bool)
    (now1 now2 : Int) (l1 l2 : List Task) (t0 : Task)
    (s' : Subtask) (subs' : List Subtask)
    (h1 : ∀ t ∈ l1, t.id ≠ taskId) (h0 : t0.id = taskId)
    (hsub : markSubGo subId b now1 t0.subtasks = (some s', subs')) :
    markTasksGo taskId subId b now1 now2 (l1 ++ t0 :: l2) =
      (some s',
        some (l1 ++ { t0 with subtasks := subs', updatedAt := now2 } :: l2)) := by
  induction l1 with
  | nil => simp [markTasksGo, h0, hsub]
  | cons t ts ih =>
    have ht : ¬ (t.id = taskId) := h1 t (by simp)
    simp only [List.cons_append, markTasksGo, if_neg ht, List.append_eq]
    rw [ih (fun x hx => h1 x (by simp [hx]))]

/-- C4: when the stored collection holds a parent task `t0` (first match for
its id) whose subtask list splits as `s1 ++ s0 :: s2` with `s0` the first
match for the subtask id, and the two wall-clock reads are at or after the
prior timestamps, `markSubtaskStatus` sets the subtask's `isComplete`, stamps
the subtask's `updatedAt` with the first clock read and the parent's with the
second — both `≥` their prior values — persists the rewritten collection and
returns the updated subtask. -/
theorem markSubtaskStatus_bumps_updatedAt
    (l1 l2 : List Task) (t0 : Task) (s1 s2 : List Subtask) (s0 : Subtask)
    (b : Bool) (now1 now2 : Int)
    (htid : t0.id ≠ "") (hsid : s0.id ≠ "")
    (hl1 : ∀ t ∈ l1, t.id ≠ t0.id)
    (hs1 : ∀ s ∈ s1, s.id ≠ s0.id)
    (hsubs : t0.subtasks = s1 ++ s0 :: s2)
    (hm1 : s0.updatedAt ≤ now1) (hm2 : t0.updatedAt ≤ now2) :
    ∃ s' t', markSubtaskStatus (l1 ++ t0 :: l2) t0.id s0.id b now1 now2 =
        .ok (some s', some (l1 ++ t' :: l2)) ∧
      s' = { s0 with isComplete := b, updatedAt := now1 } ∧
      t' = { t0 with subtasks := s1 ++ s' :: s2, updatedAt := now2 } ∧
      s'.isComplete = b ∧ s'.updatedAt = now1 ∧ t'.updatedAt = now2 ∧
      s0.updatedAt ≤ s'.updatedAt ∧ t0.updatedAt ≤ t'.updatedAt := by
  refine ⟨_, _, ?_, rfl, rfl, rfl, rfl, rfl, ?_, ?_⟩
  · simp only [markSubtaskStatus]
    rw [if_neg (by simp [htid, hsid])]
    rw [markTasksGo_first_match t0.id s0.id b now1 now2 l1 l2 t0 _ _ hl1 rfl
      (by rw [hsubs]; exact markSubGo_first_match s0.id b now1 s1 s2 s0 hs1 rfl)]
  · simpa using hm1
  · simpa using hm2

/-- C4 witness: a concrete run marking the only subtask of a single stored
task complete, with clock reads 3 and 4. -/
theorem markSubtaskStatus_bumps_updatedAt_witness :
    ∃ s' t', markSubtaskStatus ([] ++ sampleTask :: []) sampleTask.id
        sampleSub.id true 3 4 = .ok (some s', some ([] ++ t' :: [])) ∧
      s' = { sampleSub with isComplete := true, updatedAt := 3 } ∧
      t' = { sampleTask with subtasks := [] ++ s' :: [], updatedAt := 4 } ∧
      s'.isComplete = true ∧ s'.updatedAt = 3 ∧ t'.updatedAt = 4 ∧
      sampleSub.updatedAt ≤ s'.updatedAt ∧
      sampleTask.updatedAt ≤ t'.updatedAt :=
  markSubtaskStatus_bumps_updatedAt [] [] sampleTask [] [] sampleSub true 3 4
    (by decide) (by decide) (by simp) (by simp) rfl (by decide) (by decide)

/-! ### C2 -/

/-- The task record built by a successful `createTask`. -/
def builtTask (d : TaskInput) (t : String) (freshId : String) (now : Int) :
    Task :=
  { id := freshId, title := t, description := d.description.getD "",
    dueDate := jsOrNull d.dueDate, isComplete := false, createdAt := now,
    updatedAt := now, subtasks := [] }

/-- A successful `createTask` run evaluates to the built record appended to
the collection. -/
theorem createTask_ok (d : TaskInput) (t : String) (tasks : List Task)
    (freshId : String) (now : Int)
    (htitle : d.title = some t) (hne : t ≠ "") :
    createTask (some d) tasks freshId now =
      .ok (builtTask d t freshId now, tasks ++ [builtTask d t freshId now]) := by
  obtain ⟨dt, dd, ddd⟩ := d
  simp only [TaskInput.title] at htitle
  subst htitle
  simp [createTask, builtTask, if_neg hne]

/-- C2: `createTask` throws `InvalidInputError` when the task data is absent
or its title is absent or empty; with a non-empty title it builds a task from
the fresh generated id with `isComplete = false`, empty `subtasks`,
`createdAt = updatedAt = now`, appends it to the collection and persists; the
id is unique across the existing collection whenever the generated id is
fresh (the stated property of `crypto.randomUUID`). -/
theorem createTask_appends_fresh_task
    (tasks : List Task) (freshId : String) (now : Int) (d : TaskInput)
    (t : String)
    (htitle : d.title = some t) (hne : t ≠ "")
    (hfresh : freshId ∉ tasks.map Task.id) :
    createTask none tasks freshId now = .error titleRequiredError ∧
    (∀ d2 : TaskInput, d2.title = none →
      createTask (some d2) tasks freshId now = .error titleRequiredError) ∧
    (∀ d2 : TaskInput, d2.title = some "" →
      createTask (some d2) tasks freshId now = .error titleRequiredError) ∧
    ∃ nt, createTask (some d) tasks freshId now = .ok (nt, tasks ++ [nt]) ∧
      nt.id = freshId ∧ nt.id ∉ tasks.map Task.id ∧ nt.title = t ∧
      nt.isComplete = false ∧ nt.subtasks = [] ∧
      nt.createdAt = now ∧ nt.updatedAt = now := by
  refine ⟨rfl, ?_, ?_, ?_⟩
  · intro d2 h2
    obtain ⟨dt, dd, ddd⟩ := d2
    simp only [TaskInput.title] at h2
    subst h2
    rfl
  · intro d2 h2
    obtain ⟨dt, dd, ddd⟩ := d2
    simp only [TaskInput.title] at h2
    subst h2
    rfl
  · exact ⟨builtTask d t freshId now, createTask_ok d t tasks freshId now htitle hne,
      rfl, hfresh, rfl, rfl, rfl, rfl, rfl⟩

/-- C2 witness: a concrete creation over a one-task collection with a fresh
generated id. -/
theorem createTask_appends_fresh_task_witness :
    createTask none [sampleTask] "fresh-1" 9 = .error titleRequiredError ∧
    createTask (some { title := none }) [sampleTask] "fresh-1" 9 =
      .error titleRequiredError ∧
    createTask (some { title := some "" }) [sampleTask] "fresh-1" 9 =
      .error titleRequiredError ∧
    (∃ nt, createTask (some { title := some "Write copy" }) [sampleTask]
        "fresh-1" 9 = .ok (nt, [sampleTask] ++ [nt]) ∧
      nt.id = "fresh-1" ∧ nt.id ∉ [sampleTask].map Task.id ∧
      nt.title = "Write copy" ∧ nt.isComplete = false ∧ nt.subtasks = [] ∧
      nt.createdAt = 9 ∧ nt.updatedAt = 9) := by
  have h := createTask_appends_fresh_task [sampleTask] "fresh-1" 9
    { title := some "Write copy" } "Write copy" rfl (by decide) (by decide)
  exact ⟨h.1, h.2.1 { title := none } rfl, h.2.2.1 { title := some "" } rfl,
    h.2.2.2⟩

/-! ### C10 -/

/-- C10: `createTask` rejects exactly the falsy titles — absent task data,
absent title, empty title — and for any other string title, including the
whitespace-only `" "`, stores the title verbatim with no trimming; the
separate `isValidText` validator with minimum length 1 would reject `" "`
because it measures the trimmed length, and `createTask` does not consult
it. -/
theorem createTask_accepts_untrimmed_title
    (tasks : List Task) (freshId : String) (now : Int)
    (desc due : Option String) (t : String) (ht : t ≠ "") :
    createTask none tasks freshId now = .error titleRequiredError ∧
    createTask (some { title := none, description := desc, dueDate := due })
      tasks freshId now = .error titleRequiredError ∧
    createTask (some { title := some "", description := desc, dueDate := due })
      tasks freshId now = .error titleRequiredError ∧
    (∃ nt,
      createTask (some { title := some t, description := desc, dueDate := due })
        tasks freshId now = .ok (nt, tasks ++ [nt]) ∧
      nt.title = t) ∧
    (∃ nt, createTask (some { title := some " " }) tasks freshId now =
        .ok (nt, tasks ++ [nt]) ∧ nt.title = " ") ∧
    isValidText " " (some 1) none = false := by
  refine ⟨rfl, rfl, rfl, ?_, ?_, by decide⟩
  · exact ⟨builtTask { title := some t, description := desc, dueDate := due }
      t freshId now,
      createTask_ok { title := some t, description := desc, dueDate := due }
        t tasks freshId now rfl ht, rfl⟩
  · exact ⟨builtTask { title := some " " } " " freshId now,
      createTask_ok { title := some " " } " " tasks freshId now rfl
        (by decide), rfl⟩

/-- C10 witness: concrete falsy-title rejections and a whitespace-only title
stored verbatim. -/
theorem createTask_accepts_untrimmed_title_witness :
    createTask none [] "id-1" 2 = .error titleRequiredError ∧
    createTask (some { title := none, description := some "d" }) []
      "id-1" 2 = .error titleRequiredError ∧
    createTask (some { title := some "", description := some "d" }) []
      "id-1" 2 = .error titleRequiredError ∧
    (∃ nt, createTask (some { title := some "x", description := some "d" })
        [] "id-1" 2 = .ok (nt, [] ++ [nt]) ∧
      nt.title = "x") ∧
    (∃ nt, createTask (some { title := some " " }) [] "id-1" 2 =
        .ok (nt, [] ++ [nt]) ∧ nt.title = " ") ∧
    isValidText " " (some 1) none = false :=
  createTask_accepts_untrimmed_title [] "id-1" 2 (some "d") none "x"
    (by decide)

/-! ### C6 -/

/-- C6: reading a key that has never been written is not a failure: `getItem`
yields the caller-supplied default whenever the key is absent, and
`getAllTasks` passes the empty array as that default, so loading the task
collection from a fresh store yields the empty sequence. -/
theorem loadAll_missing_key_yields_default
    {α : Type} (store2 : String → Option α) (key : String) (d : α)
    (h2 : store2 key = none)
    (store : String → Option (List Task)) (h : store TASKS_KEY = none) :
    getItem store2 key d = d ∧ getAllTasksStored store = [] := by
  constructor
  · simp [getItem, h2]
  · simp [getAllTasksStored, getItem, h]

/-- C6 witness: a completely empty store. -/
theorem loadAll_missing_key_yields_default_witness :
    getItem (fun _ : String => (none : Option Nat)) "k" 7 = 7 ∧
    getAllTasksStored (fun _ => none) = [] :=
  loadAll_missing_key_yields_default (fun _ : String => (none : Option Nat))
    "k" 7 rfl (fun _ => none) rfl

/-! ### C7 -/

/-- C7 (code bug): `isValidDate` is only a strict calendar-date check in host
environments at or ahead of UTC.  `new Date("YYYY-MM-DD")` parses the string
as UTC midnight but `getFullYear`/`getMonth`/`getDate` read the host's local
calendar, so with a negative local offset (here −300 minutes, US Eastern)
every valid date string is shifted back one day and rejected:
`isValidDate("2023-02-28")` evaluates to `false` there, against the spec's
stated `true`.  At offset 0 the function behaves as specified (`false` for
"2023-02-30", `true` for "2023-02-28"). -/
theorem isValidDate_local_getter_tz_bug :
    isValidDate 0 "2023-02-30" = false ∧
    isValidDate 0 "2023-02-28" = true ∧
    isValidDate (-300) "2023-02-30" = false ∧
    isValidDate (-300) "2023-02-28" = false := by
  refine ⟨?_, ?_, ?_, ?_⟩ <;> decide

/-! ### C9 -/

/-- Whatever the capture step accepts is an 11-character id-class string. -/
theorem captureId_shape (s l : List Char) (h : captureId s = some l) :
    l.length = 11 ∧ ∀ c ∈ l, idChar c = true := by
  simp only [captureId] at h
  split at h
  · next hcond =>
    obtain rfl := Option.some.inj h
    exact ⟨hcond.1, fun c hc => List.all_eq_true.mp hcond.2 c hc⟩
  · exact absurd h (by simp)

/-- A successful `findSome?` points at some member of the list. -/
theorem findSome?_some_exists {α β : Type} (f : α → Option β) :
    ∀ (l : List α) (b : β), l.findSome? f = some b → ∃ a ∈ l, f a = some b
  | [], _, h => absurd h (by simp)
  | a :: as, b, h => by
    cases hf : f a with
    | some c =>
      simp only [List.findSome?_cons, hf, Option.some.injEq] at h
      exact ⟨a, by simp, by rw [hf, h]⟩
    | none =>
      simp only [List.findSome?_cons, hf] at h
      obtain ⟨x, hx, hfx⟩ := findSome?_some_exists f as b h
      exact ⟨x, by simp [hx], hfx⟩

/-- Whatever `matchAt` returns is an 11-character id-class string. -/
theorem matchAt_shape (s l : List Char) (h : matchAt s = some l) :
    l.length = 11 ∧ ∀ c ∈ l, idChar c = true := by
  unfold matchAt at h
  obtain ⟨a, _, hcap⟩ := findSome?_some_exists captureId (ytHead s) l h
  exact captureId_shape a l hcap

/-- Whatever the left-to-right scan returns is an 11-character id-class
string. -/
theorem scanMatch_shape (s l : List Char) (h : scanMatch s = some l) :
    l.length = 11 ∧ ∀ c ∈ l, idChar c = true := by
  induction s with
  | nil => exact matchAt_shape [] l h
  | cons c rest ih =>
    cases hm : matchAt (c :: rest) with
    | some r =>
      simp only [scanMatch, hm, Option.some.injEq] at h
      subst h
      exact matchAt_shape _ _ hm
    | none =>
      simp only [scanMatch, hm] at h
      exact ih h

/-- C9: every non-`null` result of `extractVideoId` is a string of exactly 11
characters drawn from `[A-Za-z0-9_-]`, so feeding it to `getEmbedUrl` always
produces the embed URL — the invalid-videoId branch of `getEmbedUrl` is
unreachable on that path. -/
theorem extractVideoId_yields_embeddable_id (url v : String)
    (h : extractVideoId url = some v) :
    v.length = 11 ∧ (∀ c ∈ v.data, idChar c = true) ∧
    getEmbedUrl v = some ("https://www.youtube.com/embed/" ++ v) := by
  unfold extractVideoId at h
  split at h
  · exact absurd h (by simp)
  · obtain ⟨l, hl, hv⟩ := Option.map_eq_some'.mp h
    subst hv
    obtain ⟨hlen, hall⟩ := scanMatch_shape url.data l hl
    have hvlen : (String.mk l).length = 11 := hlen
    refine ⟨hvlen, hall, ?_⟩
    unfold getEmbedUrl
    rw [if_neg (fun hc => hc hvlen)]

/-- C9 witness: the id extracted from a concrete short-link URL. -/
theorem extractVideoId_yields_embeddable_id_witness :
    ("abc12345678" : String).length = 11 ∧
    (∀ c ∈ ("abc12345678" : String).data, idChar c = true) ∧
    getEmbedUrl "abc12345678" =
      some ("https://www.youtube.com/embed/" ++ "abc12345678") :=
  extractVideoId_yields_embeddable_id "https://youtu.be/abc12345678"
    "abc12345678" (by decide)

/-! ### C5 -/

/-- A concrete stored video reference used by the witness instantiations. -/
def sampleVideo : VideoRef :=
  { id := "v1", videoId := "abc12345678", timestamp := 0 }

/-- A store seeded the way background.js seeds it on install, holding under
the `youtubeVideos` key one ref whose `videoId` is the identifier both
example URLs extract. -/
def seededStore : String → Option (List VideoRef) :=
  fun k => if k = "youtubeVideos" then some [sampleVideo] else none

/-- C5 (code bug): the dedup-by-external-identity add described by the claim
is dead code.  `handleYoutubeEmbed` reads `STORAGE_KEYS.YOUTUBE_VIDEOS`,
which is not a property of storage.js's `STORAGE_KEYS`, so the load yields
`null` whatever the store holds; `videos.some` then throws a TypeError and
the handler ends in the generic `embedVideoFailed` alert.  Consequently the
handler never writes the store and its outcome is always one of the three
non-duplicate, non-added alerts; even the claim's own colliding example URLs,
run over a store seeded (as background.js does) with a ref already carrying
`abc12345678`, fail generically instead of being rejected as duplicates.
The two URL forms do extract the same identifier, as the claim states. -/
theorem handleYoutubeEmbed_key_undefined_bug :
    (∀ (store : String → Option (List VideoRef)) (urlValid : Bool)
        (url newId : String) (now : Int),
      (handleYoutubeEmbed urlValid url store newId now).2 = store ∧
      (handleYoutubeEmbed urlValid url store newId now).1 ∈
        [EmbedOutcome.invalidUrl, EmbedOutcome.unparsableUrl,
          EmbedOutcome.failed]) ∧
    (handleYoutubeEmbed true "https://www.youtube.com/watch?v=abc12345678"
        seededStore "v2" 1).1 = EmbedOutcome.failed ∧
    (handleYoutubeEmbed true "https://youtu.be/abc12345678" seededStore
        "v2" 1).1 = EmbedOutcome.failed ∧
    extractVideoId "https://youtu.be/abc12345678" = some "abc12345678" ∧
    extractVideoId "https://www.youtube.com/watch?v=abc12345678" =
      some "abc12345678" := by
  refine ⟨?_, by decide, by decide, by decide, by decide⟩
  intro store urlValid url newId now
  by_cases hv : urlValid = false
  · simp [handleYoutubeEmbed, hv]
  · cases hx : extractVideoId url with
    | none => simp [handleYoutubeEmbed, hv, hx]
    | some vid =>
      simp [handleYoutubeEmbed, hv, hx, getItemKeyed,
        STORAGE_KEYS_YOUTUBE_VIDEOS]

end TaskApp
